import Mathlib

set_option maxHeartbeats 1000000
set_option maxRecDepth 4000

/-!
Shallow embedding of the reservation engine of the reservas Django app
(src/reservas/models.py, src/reservas/admin.py, src/reservas/views.py).

Dates are day ordinals (Nat), database tables are lists of records, and
Django querysets become list operations.  A record's primary key is an
explicit Nat id; Django's autoincrement is modelled by fresh-id functions
over the table.  random.choice is modelled by an oracle Nat → Fin 5
indexing into the weighted capacity list.  Exceptions raised by the
Python code become Except / Option results.
-/

/-- estado choices of Reserva (models.py ESTADO_CHOICES). -/
inductive Estado
  | pendiente
  | confirmada
  | cancelada
  | rechazada
  | completada
deriving Repr, DecidableEq

/-- The two statuses treated as active in every availability query:
the filter estado__in=['confirmada', 'pendiente'] used throughout models.py. -/
def esActiva : Estado → Bool
  | .pendiente => true
  | .confirmada => true
  | _ => false

/-- Hotel record (models.py Hotel); only the fields the engine reads. -/
structure Hotel where
  id : Nat
  cantidad_habitaciones : Nat
  generar_habitaciones_auto : Bool
deriving Repr, DecidableEq

/-- Habitacion record (models.py Habitacion). -/
structure Habitacion where
  id : Nat
  hotelId : Nat
  numero : String
  cantidad_plazas : Nat
deriving Repr, DecidableEq

/-- Huesped record (models.py Huesped). -/
structure Huesped where
  id : Nat
  nombre : String
  email : String
  telefono : String
deriving Repr, DecidableEq

/-- Reserva record (models.py Reserva).  habitacion is nullable
(on_delete=SET_NULL). -/
structure Reserva where
  id : Nat
  huespedId : Nat
  fecha_reserva : Nat
  cantidad_personas : Nat
  habitacion : Option Nat
  estado : Estado
deriving Repr, DecidableEq

/-- The persistent store: one list per Django table. -/
structure DB where
  hoteles : List Hotel
  habitaciones : List Habitacion
  huespedes : List Huesped
  reservas : List Reserva
deriving Repr, DecidableEq

/-- Hotel.objects.get(id=...) returning none instead of raising DoesNotExist. -/
def findHotel (db : DB) (i : Nat) : Option Hotel :=
  db.hoteles.find? (fun h => decide (h.id = i))

/-- Habitacion.objects.get(id=...). -/
def findHabitacion (db : DB) (i : Nat) : Option Habitacion :=
  db.habitaciones.find? (fun h => decide (h.id = i))

/-- Huesped.objects.get(id=...). -/
def findHuesped (db : DB) (i : Nat) : Option Huesped :=
  db.huespedes.find? (fun h => decide (h.id = i))

/-- Reserva.objects.get(id=...). -/
def findReserva (db : DB) (i : Nat) : Option Reserva :=
  db.reservas.find? (fun r => decide (r.id = i))

/-- One reservation row occupies room h on date f: the row matches the filter
habitacion=h, fecha_reserva=f, estado__in=['confirmada', 'pendiente']. -/
def ocupa (h fecha : Nat) (s : Reserva) : Bool :=
  decide (s.habitacion = some h) && decide (s.fecha_reserva = fecha) && esActiva s.estado

/-- Habitacion.esta_disponible (models.py 110-116): true iff no reservation
for this exact room and date has an active status. -/
def esta_disponible (db : DB) (h fecha : Nat) : Bool :=
  ! db.reservas.any (ocupa h fecha)

/-- Lexicographic comparison of the character data of two room numbers,
the order a varchar column (Habitacion.numero) sorts in. -/
def charsLe : List Char → List Char → Bool
  | [], _ => true
  | _ :: _, [] => false
  | a :: as, b :: bs =>
    if a.toNat < b.toNat then true
    else if b.toNat < a.toNat then false
    else charsLe as bs

/-- Ordering on rooms induced by Habitacion.Meta.ordering = ['hotel', 'numero']
restricted to a single hotel: ascending numero (string order). -/
def numeroLe (a b : Habitacion) : Bool :=
  charsLe a.numero.data b.numero.data

/-- Insert one room into a list sorted by numeroLe. -/
def insertarPorNumero (h : Habitacion) : List Habitacion → List Habitacion
  | [] => [h]
  | x :: xs => if numeroLe h x then h :: x :: xs else x :: insertarPorNumero h xs

/-- Insertion sort by numeroLe: the ordering a queryset of one hotel's rooms
carries because of Habitacion.Meta.ordering. -/
def ordenarPorNumero : List Habitacion → List Habitacion
  | [] => []
  | x :: xs => insertarPorNumero x (ordenarPorNumero xs)

/-- Hotel.habitaciones_disponibles (models.py 54-67) with the date already
resolved: collect the room ids of active reservations on the date whose room
belongs to this hotel, then return the hotel's rooms (in Meta order) whose id
is not among them. -/
def habitaciones_disponibles (db : DB) (hotelId fecha : Nat) : List Habitacion :=
  let habitaciones_reservadas : List Nat := db.reservas.filterMap (fun s =>
    match s.habitacion with
    | some hid =>
      if decide (s.fecha_reserva = fecha) && esActiva s.estado &&
          (match findHabitacion db hid with
           | some hb => decide (hb.hotelId = hotelId)
           | none => false)
      then some hid else none
    | none => none)
  (ordenarPorNumero (db.habitaciones.filter (fun h => decide (h.hotelId = hotelId)))).filter
    (fun h => decide (h.id ∉ habitaciones_reservadas))

/-- Hotel.habitaciones_disponibles with its optional fecha argument: a missing
fecha defaults to today's date (timezone.now().date()). -/
def habitaciones_disponibles_opt (db : DB) (hotelId : Nat) (fecha : Option Nat)
    (hoy : Nat) : List Habitacion :=
  habitaciones_disponibles db hotelId (fecha.getD hoy)

/-- The conflicting-reservation queryset inside Reserva.save (models.py
216-220): same habitacion, same fecha_reserva, active estado, excluding the
row being saved by id. -/
def hayConflicto (db : DB) (r : Reserva) : Bool :=
  db.reservas.any (fun s =>
    decide (s.habitacion = r.habitacion) && decide (s.fecha_reserva = r.fecha_reserva) &&
    esActiva s.estado && decide (s.id ≠ r.id))

/-- Apply the row write itself: an UPDATE when the primary key is set, an
INSERT otherwise. -/
def dbGuardar (db : DB) (r : Reserva) (pkSet : Bool) : DB :=
  if pkSet then
    { db with reservas := db.reservas.map (fun s => if s.id = r.id then r else s) }
  else
    { db with reservas := db.reservas ++ [r] }

/-- Reserva.save (models.py 211-225).  pkSet is the truthiness of self.pk:
the conflict check only runs for a confirmada reservation that already has a
primary key and a non-null habitacion; otherwise the write goes through. -/
def saveReserva (db : DB) (r : Reserva) (pkSet : Bool) : Except String DB :=
  if r.estado = .confirmada ∧ pkSet = true ∧ r.habitacion.isSome = true ∧
      hayConflicto db r = true then
    .error "La habitación ya está reservada para esta fecha"
  else
    .ok (dbGuardar db r pkSet)

/-- Reserva.puede_confirmar (models.py 253-257). -/
def puede_confirmar (db : DB) (r : Reserva) : Bool :=
  match r.habitacion with
  | none => false
  | some h => esta_disponible db h r.fecha_reserva && decide (r.estado = .pendiente)

/-- Reserva.puede_cancelar (models.py 259-261). -/
def puede_cancelar (r : Reserva) : Bool :=
  decide (r.estado = .pendiente ∨ r.estado = .confirmada)

/-- Fresh primary key for an INSERT into the reservas table. -/
def freshReservaId (db : DB) : Nat :=
  (db.reservas.map Reserva.id).foldr max 0 + 1

/-- Fresh primary key for an INSERT into the habitaciones table. -/
def freshHabitacionId (db : DB) : Nat :=
  (db.habitaciones.map Habitacion.id).foldr max 0 + 1

/-- Fresh primary key for an INSERT into the huespedes table. -/
def freshHuespedId (db : DB) : Nat :=
  (db.huespedes.map Huesped.id).foldr max 0 + 1

/-- The queryset hotel.habitaciones_disponibles(fecha).filter(
cantidad_plazas__gte=cantidad_personas) used by the automatic room selection
of crear_reserva_desde_admin (models.py 350-352). -/
def elegibles (db : DB) (hotelId fecha cantidad_personas : Nat) : List Habitacion :=
  (habitaciones_disponibles db hotelId fecha).filter
    (fun h => decide (cantidad_personas ≤ h.cantidad_plazas))

/-- The creation tail of crear_reserva_desde_admin once a room is resolved:
re-check esta_disponible, then Reserva.objects.create(..., estado='confirmada'),
whose save runs with pk unset. -/
def crearConHabitacion (db : DB) (huespedId fecha cantidad_personas : Nat)
    (habitacion : Habitacion) : DB × Option Nat × String :=
  if esta_disponible db habitacion.id fecha then
    let nueva : Reserva :=
      ⟨freshReservaId db, huespedId, fecha, cantidad_personas, some habitacion.id,
        .confirmada⟩
    match saveReserva db nueva false with
    | .ok db' => (db', some nueva.id, "Reserva creada exitosamente")
    | .error e => (db, none, "Error: " ++ e)
  else (db, none, "La habitación seleccionada no está disponible")

/-- crear_reserva_desde_admin (models.py 338-372): resolve huesped and hotel;
resolve the room either from the explicit habitacion_id or as .first() of the
hotel's available rooms with enough capacity; then create the reservation with
estado='confirmada'.  Returns the new database, the created reservation id if
any, and the message string. -/
def crear_reserva_desde_admin (db : DB) (huespedId fecha cantidad_personas hotelId : Nat)
    (habitacionId : Option Nat) : DB × Option Nat × String :=
  match findHuesped db huespedId, findHotel db hotelId with
  | some _, some _ =>
    match habitacionId with
    | some hid =>
      match findHabitacion db hid with
      | none => (db, none, "Error: Habitacion matching query does not exist.")
      | some habitacion => crearConHabitacion db huespedId fecha cantidad_personas habitacion
    | none =>
      match (elegibles db hotelId fecha cantidad_personas).head? with
      | none => (db, none, "No hay habitaciones disponibles")
      | some habitacion => crearConHabitacion db huespedId fecha cantidad_personas habitacion
  | _, _ => (db, none, "Error: matching query does not exist.")

/-- cambiar_habitacion_reserva (models.py 374-396): look up the reservation
and the new room, check esta_disponible on the reservation's date, check
capacity, then rewrite the room reference and save. -/
def cambiar_habitacion_reserva (db : DB) (reservaId nuevaHabitacionId : Nat) :
    DB × Bool × String :=
  match findReserva db reservaId, findHabitacion db nuevaHabitacionId with
  | some reserva, some nueva_habitacion =>
    if ! esta_disponible db nueva_habitacion.id reserva.fecha_reserva then
      (db, false, "La nueva habitación no está disponible")
    else if nueva_habitacion.cantidad_plazas < reserva.cantidad_personas then
      (db, false, "La habitación no tiene capacidad suficiente")
    else
      match saveReserva db { reserva with habitacion := some nueva_habitacion.id } true with
      | .ok db' => (db', true, "Habitación cambiada exitosamente")
      | .error e => (db, false, "Error: " ++ e)
  | _, _ => (db, false, "Error: matching query does not exist.")

/-- Loop body of confirmar_reserva_masiva (models.py 405-415): look the id up
in the current database, confirm when puede_confirmar allows it, otherwise add
the per-id failure message; an unresolvable id or a save error also lands in
fallidas. -/
def pasoMasiva (acc : DB × Nat × List String) (rid : Nat) : DB × Nat × List String :=
  match findReserva acc.1 rid with
  | none => (acc.1, acc.2.1, acc.2.2 ++ ["Reserva #" ++ toString rid ++ ": no existe"])
  | some r =>
    if puede_confirmar acc.1 r then
      match saveReserva acc.1 { r with estado := .confirmada } true with
      | .ok db' => (db', acc.2.1 + 1, acc.2.2)
      | .error e => (acc.1, acc.2.1, acc.2.2 ++ ["Reserva #" ++ toString rid ++ ": " ++ e])
    else
      (acc.1, acc.2.1, acc.2.2 ++ ["Reserva #" ++ toString rid ++ " no se puede confirmar"])

/-- confirmar_reserva_masiva (models.py 398-417): fold over the ids, counting
successes (exitosas) and accumulating per-id failure messages (fallidas). -/
def confirmar_reserva_masiva (db : DB) (ids : List Nat) : DB × Nat × List String :=
  ids.foldl pasoMasiva (db, 0, ([] : List String))

/-- Outcome of the admin confirm view. -/
inductive ResultadoConfirmar
  | confirmada
  | alternativas (n : Nat)
  | sinDisponibles
  | noEncontrada
deriving Repr, DecidableEq

/-- ReservaAdmin.confirmar_reserva (admin.py 615-654): fetch the reservation,
check reserva.habitacion.esta_disponible on the reservation's own date (no
self-exclusion); when unavailable, count alternatives with enough capacity and
either redirect to the room-change page or report that no rooms are free; when
available, set estado='confirmada' and save.  A missing reservation or a null
habitacion raises in Python and writes nothing. -/
def confirmar_reserva_view (db : DB) (reservaId : Nat) : DB × ResultadoConfirmar :=
  match findReserva db reservaId with
  | none => (db, .noEncontrada)
  | some reserva =>
    match reserva.habitacion with
    | none => (db, .noEncontrada)
    | some h =>
      if esta_disponible db h reserva.fecha_reserva then
        match saveReserva db { reserva with estado := .confirmada } true with
        | .ok db' => (db', .confirmada)
        | .error _ => (db, .noEncontrada)
      else
        match findHabitacion db h with
        | none => (db, .noEncontrada)
        | some hab =>
          let alternativas :=
            elegibles db hab.hotelId reserva.fecha_reserva reserva.cantidad_personas
          if alternativas.length ≠ 0 then (db, .alternativas alternativas.length)
          else (db, .sinDisponibles)

/-- ReservaAdmin.cancelar_reserva (admin.py 656-668): fetch the reservation,
set estado='cancelada' and save, then emit the user-facing message.  The
returned list holds the messages fired by the call. -/
def cancelar_reserva_view (db : DB) (reservaId : Nat) : DB × List String :=
  match findReserva db reservaId with
  | none => (db, [])
  | some reserva =>
    match saveReserva db { reserva with estado := .cancelada } true with
    | .ok db' => (db', ["Reserva #" ++ toString reservaId ++ " cancelada"])
    | .error _ => (db, [])

/-- ReservaAdmin.cambiar_habitacion POST branch (admin.py 689-701): fetch the
reservation, require it to have a room (else message + redirect, no write),
fetch the posted room, assign it and save — with no availability or capacity
validation of the posted room.  Returns the database and whether the room was
rewritten. -/
def cambiar_habitacion_view (db : DB) (reservaId habitacionId : Nat) : DB × Bool :=
  match findReserva db reservaId with
  | none => (db, false)
  | some reserva =>
    match reserva.habitacion with
    | none => (db, false)
    | some _ =>
      match findHabitacion db habitacionId with
      | none => (db, false)
      | some nueva_habitacion =>
        match saveReserva db { reserva with habitacion := some nueva_habitacion.id } true with
        | .ok db' => (db', true)
        | .error _ => (db, false)

/-- Per-reservation body of the admin action confirmar_reservas (admin.py
69-79): skip reservations already confirmada, otherwise set
estado='confirmada' and run Reserva.save; the ValueError raised by save leaves
the database untouched and is returned as the message. -/
def confirmar_reserva_directa (db : DB) (reservaId : Nat) : DB × Option String :=
  match findReserva db reservaId with
  | none => (db, none)
  | some reserva =>
    if reserva.estado = .confirmada then (db, none)
    else
      match saveReserva db { reserva with estado := .confirmada } true with
      | .ok db' => (db', none)
      | .error e => (db, some e)

/-- The weighted capacity list tipos_plazas = [1, 2, 2, 3, 4] of
Hotel.generar_habitaciones (models.py 35). -/
def tipos_plazas : List Nat := [1, 2, 2, 3, 4]

/-- random.choice(tipos_plazas) given the oracle's pick of an index. -/
def elegirPlazas (k : Fin 5) : Nat := tipos_plazas.getD k.val 2

/-- The rooms Hotel.generar_habitaciones creates on an empty hotel: one per
loop iteration i = 1..cantidad_habitaciones, numbered str(i), with
random.choice(tipos_plazas) as capacity. -/
def nuevasHabitaciones (db : DB) (hotel : Hotel) (rnd : Nat → Fin 5) : List Habitacion :=
  (List.range hotel.cantidad_habitaciones).map (fun j =>
    ({ id := freshHabitacionId db + j, hotelId := hotel.id, numero := toString (j + 1),
       cantidad_plazas := elegirPlazas (rnd (j + 1)) } : Habitacion))

/-- Hotel.generar_habitaciones (models.py 28-52): if the hotel already has any
rooms return their count and create nothing; otherwise create
cantidad_habitaciones rooms numbered "1".."N" with capacities drawn via the
random oracle, and return the number created. -/
def generar_habitaciones (db : DB) (hotel : Hotel) (rnd : Nat → Fin 5) : DB × Nat :=
  let existentes := db.habitaciones.filter (fun h => decide (h.hotelId = hotel.id))
  if existentes.length ≠ 0 then (db, existentes.length)
  else
    ({ db with habitaciones := db.habitaciones ++ nuevasHabitaciones db hotel rnd },
     (nuevasHabitaciones db hotel rnd).length)

/-- Guest resolution step of completar_reserva (views.py 161-178):
Huesped.objects.get_or_create(email=email, defaults=...) followed by an
update-in-place of nombre/telefono when they differ.  Returns the database and
the id of the resolved guest. -/
def resolverHuesped (db : DB) (nombre email telefono : String) : DB × Nat :=
  match db.huespedes.find? (fun h => decide (h.email = email)) with
  | some h =>
    if h.nombre ≠ nombre ∨ h.telefono ≠ telefono then
      ({ db with huespedes := db.huespedes.map (fun x =>
          if x.id = h.id then { x with nombre := nombre, telefono := telefono } else x) },
        h.id)
    else (db, h.id)
  | none =>
    ({ db with huespedes := db.huespedes ++ [⟨freshHuespedId db, nombre, email, telefono⟩] },
      freshHuespedId db)

/-- The admin-facing operations of the engine, as cited from models.py and the
admin views built directly on them. -/
inductive AdminOp
  | crear (huespedId fecha cantidad_personas hotelId : Nat) (habitacionId : Option Nat)
  | confirmar (reservaId : Nat)
  | confirmarMasiva (ids : List Nat)
  | cancelar (reservaId : Nat)
  | reasignar (reservaId nuevaHabitacionId : Nat)

/-- Database effect of one operation. -/
def applyOp (db : DB) : AdminOp → DB
  | .crear hu f p ho hab => (crear_reserva_desde_admin db hu f p ho hab).1
  | .confirmar rid => (confirmar_reserva_view db rid).1
  | .confirmarMasiva ids => (confirmar_reserva_masiva db ids).1
  | .cancelar rid => (cancelar_reserva_view db rid).1
  | .reasignar rid nh => (cambiar_habitacion_reserva db rid nh).1

/-- Database effect of a sequence of operations. -/
def applyOps (db : DB) (ops : List AdminOp) : DB := ops.foldl applyOp db

/-- Room-date exclusivity: any two active reservations on the same room and
date are the same row. -/
def roomDateExclusive (db : DB) : Prop :=
  ∀ r1 ∈ db.reservas, ∀ r2 ∈ db.reservas,
    esActiva r1.estado = true → esActiva r2.estado = true →
    r1.habitacion.isSome = true → r1.habitacion = r2.habitacion →
    r1.fecha_reserva = r2.fecha_reserva → r1.id = r2.id

instance (db : DB) : Decidable (roomDateExclusive db) := by
  unfold roomDateExclusive
  exact inferInstance

/-- Primary keys of the reservas table are distinct. -/
def reservaIdsNodup (db : DB) : Prop := (db.reservas.map Reserva.id).Nodup

/-- Primary keys of the habitaciones table are distinct. -/
def habitacionIdsNodup (db : DB) : Prop := (db.habitaciones.map Habitacion.id).Nodup

/-!
Basic characterizations of the availability predicates.
-/

/-- Characterization of ocupa. -/
lemma ocupa_eq_true {h f : Nat} {s : Reserva} :
    ocupa h f s = true ↔
      s.habitacion = some h ∧ s.fecha_reserva = f ∧ esActiva s.estado = true := by
  simp [ocupa, and_assoc]

/-- esta_disponible holds iff no reservation row occupies the room on the date. -/
lemma esta_disponible_eq_true {db : DB} {h f : Nat} :
    esta_disponible db h f = true ↔
      ∀ s ∈ db.reservas,
        ¬(s.habitacion = some h ∧ s.fecha_reserva = f ∧ esActiva s.estado = true) := by
  simp [esta_disponible, List.any_eq_true, ocupa_eq_true]

/-- esta_disponible fails iff some reservation row occupies the room on the date. -/
lemma esta_disponible_eq_false {db : DB} {h f : Nat} :
    esta_disponible db h f = false ↔
      ∃ s ∈ db.reservas,
        s.habitacion = some h ∧ s.fecha_reserva = f ∧ esActiva s.estado = true := by
  rw [← Bool.not_eq_true, esta_disponible_eq_true]
  push_neg
  simp

/-- Characterization of the save-time conflict queryset. -/
lemma hayConflicto_eq_true {db : DB} {r : Reserva} :
    hayConflicto db r = true ↔
      ∃ s ∈ db.reservas, s.habitacion = r.habitacion ∧
        s.fecha_reserva = r.fecha_reserva ∧ esActiva s.estado = true ∧ s.id ≠ r.id := by
  simp [hayConflicto, List.any_eq_true, and_assoc]

/-- If the room of a pending-to-confirm write is free, the save-time conflict
check passes. -/
lemma hayConflicto_eq_false_of_disponible {db : DB} {r : Reserva} {h : Nat}
    (hh : r.habitacion = some h) (hd : esta_disponible db h r.fecha_reserva = true) :
    hayConflicto db r = false := by
  rw [Bool.eq_false_iff]
  intro hc
  obtain ⟨s, hs, hsh, hsf, hsa, _⟩ := hayConflicto_eq_true.mp hc
  exact esta_disponible_eq_true.mp hd s hs ⟨hh ▸ hsh, hsf, hsa⟩

/-- An INSERT (pk unset) never runs the conflict check. -/
lemma saveReserva_insert (db : DB) (r : Reserva) :
    saveReserva db r false = .ok (dbGuardar db r false) := by
  unfold saveReserva
  rw [if_neg]
  simp

/-- A save that returns ok applied exactly the row write. -/
lemma saveReserva_ok_eq {db : DB} {r : Reserva} {pk : Bool} {db' : DB}
    (h : saveReserva db r pk = .ok db') : db' = dbGuardar db r pk := by
  unfold saveReserva at h
  split at h
  · cases h
  · cases h
    rfl

/-- A save whose estado is not confirmada always succeeds. -/
lemma saveReserva_ok_of_not_confirmada {db : DB} {r : Reserva} {pk : Bool}
    (h : r.estado ≠ .confirmada) : saveReserva db r pk = .ok (dbGuardar db r pk) := by
  unfold saveReserva
  rw [if_neg]
  intro hc
  exact h hc.1

/-!
List-level helpers: find? through a pointwise-invisible map, foldr max bounds,
and the insertion sort on room numbers.
-/

/-- find? commutes with a map that does not change the predicate's value. -/
lemma find?_map_pres {α : Type} (u : α → α) (p : α → Bool)
    (hp : ∀ x, p (u x) = p x) : ∀ l : List α, (l.map u).find? p = (l.find? p).map u := by
  intro l
  induction l with
  | nil => rfl
  | cons a t ih =>
    by_cases ha : p a = true
    · simp [List.find?_cons, hp, ha]
    · rw [Bool.not_eq_true] at ha
      simp [List.find?_cons, hp, ha, ih]

/-- Every member of a Nat list is bounded by its foldr max. -/
lemma le_foldr_max (l : List Nat) : ∀ x ∈ l, x ≤ l.foldr max 0 := by
  induction l with
  | nil => simp
  | cons a t ih =>
    intro x hx
    rcases List.mem_cons.mp hx with rfl | hx
    · exact le_max_left _ _
    · exact le_trans (ih x hx) (le_max_right _ _)

/-- The fresh reservation id is not a primary key already in use. -/
lemma freshReservaId_not_mem (db : DB) :
    freshReservaId db ∉ db.reservas.map Reserva.id := by
  intro hmem
  have := le_foldr_max _ _ hmem
  simp only [freshReservaId] at this
  omega

/-- With distinct ids, looking a room up in a plain list by its own id finds
exactly it. -/
lemma find?_id_self {l : List Habitacion} {r : Habitacion}
    (hnd : (l.map Habitacion.id).Nodup) (hmem : r ∈ l) :
    l.find? (fun h => decide (h.id = r.id)) = some r := by
  induction l with
  | nil => cases hmem
  | cons a t ih =>
    rw [List.map_cons, List.nodup_cons] at hnd
    rcases List.mem_cons.mp hmem with rfl | hmem'
    · simp [List.find?_cons]
    · by_cases ha : a.id = r.id
      · exfalso
        exact hnd.1 (ha ▸ List.mem_map_of_mem Habitacion.id hmem')
      · rw [List.find?_cons]
        simp only [decide_eq_true_eq, ha, decide_False]
        exact ih hnd.2 hmem'

/-- With distinct room primary keys, looking a room up by its own id finds it. -/
lemma findHabitacion_self {db : DB} {r : Habitacion}
    (hnd : habitacionIdsNodup db) (hmem : r ∈ db.habitaciones) :
    findHabitacion db r.id = some r :=
  find?_id_self hnd hmem

/-- Membership in insertion. -/
lemma mem_insertarPorNumero {x h : Habitacion} {l : List Habitacion} :
    x ∈ insertarPorNumero h l ↔ x = h ∨ x ∈ l := by
  induction l with
  | nil => simp [insertarPorNumero]
  | cons a t ih =>
    unfold insertarPorNumero
    by_cases hle : numeroLe h a = true
    · simp [hle]
    · rw [Bool.not_eq_true] at hle
      simp only [hle]
      simp [ih]
      tauto

/-- Membership is preserved by the insertion sort. -/
lemma mem_ordenarPorNumero {x : Habitacion} {l : List Habitacion} :
    x ∈ ordenarPorNumero l ↔ x ∈ l := by
  induction l with
  | nil => simp [ordenarPorNumero]
  | cons a t ih =>
    unfold ordenarPorNumero
    rw [mem_insertarPorNumero, ih]
    simp

/-- charsLe is reflexive. -/
lemma charsLe_refl (l : List Char) : charsLe l l = true := by
  induction l with
  | nil => rfl
  | cons a t ih => simp [charsLe, ih]

/-- charsLe is total. -/
lemma charsLe_total (l1 l2 : List Char) : charsLe l1 l2 = true ∨ charsLe l2 l1 = true := by
  induction l1 generalizing l2 with
  | nil => left; rfl
  | cons a t ih =>
    cases l2 with
    | nil => right; rfl
    | cons b s =>
      by_cases hab : a.toNat < b.toNat
      · left; simp [charsLe, hab]
      · by_cases hba : b.toNat < a.toNat
        · right; simp [charsLe, hba]
        · rcases ih s with h | h
          · left; simp [charsLe, hab, hba, h]
          · right; simp [charsLe, hba, hab, h]

/-- charsLe is transitive. -/
lemma charsLe_trans {l1 l2 l3 : List Char} (h12 : charsLe l1 l2 = true)
    (h23 : charsLe l2 l3 = true) : charsLe l1 l3 = true := by
  induction l1 generalizing l2 l3 with
  | nil => rfl
  | cons a t ih =>
    cases l2 with
    | nil => simp [charsLe] at h12
    | cons b s =>
      cases l3 with
      | nil => simp [charsLe] at h23
      | cons c u =>
        simp only [charsLe] at h12 h23 ⊢
        by_cases hab : a.toNat < b.toNat
        · rw [if_pos hab] at h12
          by_cases hbc : b.toNat < c.toNat
          · rw [if_pos (by omega)]
          · rw [if_neg hbc] at h23
            by_cases hcb : c.toNat < b.toNat
            · rw [if_pos hcb] at h23; simp at h23
            · rw [if_pos (by omega)]
        · rw [if_neg hab] at h12
          by_cases hba : b.toNat < a.toNat
          · rw [if_pos hba] at h12; simp at h12
          · rw [if_neg hba] at h12
            by_cases hbc : b.toNat < c.toNat
            · rw [if_pos (by omega)]
            · rw [if_neg hbc] at h23
              by_cases hcb : c.toNat < b.toNat
              · rw [if_pos hcb] at h23; simp at h23
              · rw [if_neg hcb] at h23
                rw [if_neg (by omega), if_neg (by omega)]
                exact ih h12 h23

/-- numeroLe is total. -/
lemma numeroLe_total (a b : Habitacion) : numeroLe a b = true ∨ numeroLe b a = true :=
  charsLe_total a.numero.data b.numero.data

/-- numeroLe is transitive. -/
lemma numeroLe_trans {a b c : Habitacion} (hab : numeroLe a b = true)
    (hbc : numeroLe b c = true) : numeroLe a c = true :=
  charsLe_trans hab hbc

/-- Insertion keeps a numeroLe-sorted list sorted. -/
lemma pairwise_insertarPorNumero {h : Habitacion} {l : List Habitacion}
    (hp : l.Pairwise (fun a b => numeroLe a b = true)) :
    (insertarPorNumero h l).Pairwise (fun a b => numeroLe a b = true) := by
  induction l with
  | nil => simp [insertarPorNumero]
  | cons a t ih =>
    rw [List.pairwise_cons] at hp
    unfold insertarPorNumero
    by_cases hle : numeroLe h a = true
    · rw [if_pos hle, List.pairwise_cons]
      refine ⟨?_, List.pairwise_cons.mpr hp⟩
      intro x hx
      rcases List.mem_cons.mp hx with rfl | hx'
      · exact hle
      · exact numeroLe_trans hle (hp.1 x hx')
    · rw [if_neg hle, List.pairwise_cons]
      have hal : numeroLe a h = true := by
        rcases numeroLe_total h a with hc | hc
        · exact absurd hc hle
        · exact hc
      refine ⟨?_, ih hp.2⟩
      intro x hx
      rcases mem_insertarPorNumero.mp hx with rfl | hx'
      · exact hal
      · exact hp.1 x hx'

/-- The insertion sort produces a numeroLe-sorted list. -/
lemma pairwise_ordenarPorNumero (l : List Habitacion) :
    (ordenarPorNumero l).Pairwise (fun a b => numeroLe a b = true) := by
  induction l with
  | nil => simp [ordenarPorNumero]
  | cons a t ih => exact pairwise_insertarPorNumero ih

/-- Membership in the availability queryset agrees with the per-room
predicate: given distinct room primary keys, a room is in
habitaciones_disponibles iff it belongs to the hotel and esta_disponible holds
for it on the date. -/
lemma mem_habitaciones_disponibles {db : DB} {hotelId fecha : Nat} {r : Habitacion}
    (hnd : habitacionIdsNodup db) :
    r ∈ habitaciones_disponibles db hotelId fecha ↔
      r ∈ db.habitaciones ∧ r.hotelId = hotelId ∧ esta_disponible db r.id fecha = true := by
  unfold habitaciones_disponibles
  rw [List.mem_filter, mem_ordenarPorNumero, List.mem_filter]
  simp only [decide_eq_true_eq]
  constructor
  · rintro ⟨⟨hmem, hhot⟩, hnot⟩
    refine ⟨hmem, hhot, ?_⟩
    rw [esta_disponible_eq_true]
    intro s hs ⟨hsh, hsf, hsa⟩
    apply hnot
    apply List.mem_filterMap.mpr
    refine ⟨s, hs, ?_⟩
    rw [hsh]
    have hself : findHabitacion db r.id = some r := findHabitacion_self hnd hmem
    simp [hsf, hsa, hself, hhot]
  · rintro ⟨hmem, hhot, hdisp⟩
    refine ⟨⟨hmem, hhot⟩, ?_⟩
    intro hin
    obtain ⟨s, hs, hfs⟩ := List.mem_filterMap.mp hin
    split at hfs
    case _ hid hsh =>
      split at hfs
      case _ hcond =>
        cases hfs
        rw [Bool.and_eq_true, Bool.and_eq_true] at hcond
        obtain ⟨⟨hsf, hsa⟩, _⟩ := hcond
        rw [decide_eq_true_eq] at hsf
        exact esta_disponible_eq_true.mp hdisp s hs ⟨hsh, hsf, hsa⟩
      case _ => cases hfs
    case _ => cases hfs

/-!
Effect of the row writes on the reservation table, and preservation of the
room-date exclusivity invariant by each operation.
-/

/-- An UPDATE leaves the multiset of primary keys unchanged. -/
lemma dbGuardar_update_ids (db : DB) (r : Reserva) :
    (dbGuardar db r true).reservas.map Reserva.id = db.reservas.map Reserva.id := by
  show (db.reservas.map (fun s => if s.id = r.id then r else s)).map Reserva.id
      = db.reservas.map Reserva.id
  rw [List.map_map]
  apply List.map_congr_left
  intro s _
  by_cases c : s.id = r.id
  · simp [Function.comp, c]
  · simp [Function.comp, c]

/-- An UPDATE write preserves room-date exclusivity provided the written row,
when it is active with a room, targets a free room+date. -/
lemma roomDateExclusive_update (db : DB) (r : Reserva)
    (hinv : roomDateExclusive db)
    (hsafe : ∀ h, r.habitacion = some h → esActiva r.estado = true →
      esta_disponible db h r.fecha_reserva = true) :
    roomDateExclusive (dbGuardar db r true) := by
  intro r1 hr1 r2 hr2 ha1 ha2 hsome heq hf
  have hr1' : r1 ∈ db.reservas.map (fun s => if s.id = r.id then r else s) := hr1
  have hr2' : r2 ∈ db.reservas.map (fun s => if s.id = r.id then r else s) := hr2
  obtain ⟨s1, hs1, he1⟩ := List.mem_map.mp hr1'
  obtain ⟨s2, hs2, he2⟩ := List.mem_map.mp hr2'
  by_cases c1 : s1.id = r.id <;> by_cases c2 : s2.id = r.id
  · rw [if_pos c1] at he1
    rw [if_pos c2] at he2
    rw [← he1, ← he2]
  · -- r1 is the written row, r2 an untouched row occupying the same room+date
    rw [if_pos c1] at he1
    rw [if_neg c2] at he2
    subst he1
    subst he2
    obtain ⟨h, hh⟩ := Option.isSome_iff_exists.mp hsome
    have hdisp := hsafe h hh ha1
    exfalso
    exact esta_disponible_eq_true.mp hdisp s2 hs2 ⟨heq ▸ hh, hf.symm, ha2⟩
  · -- r2 is the written row, r1 an untouched row occupying the same room+date
    rw [if_neg c1] at he1
    rw [if_pos c2] at he2
    subst he1
    subst he2
    obtain ⟨h, hh⟩ := Option.isSome_iff_exists.mp hsome
    have hdisp := hsafe h (heq ▸ hh) ha2
    exfalso
    have hf' : s1.fecha_reserva = r.fecha_reserva := hf
    exact esta_disponible_eq_true.mp hdisp s1 hs1 ⟨hh, hf', ha1⟩
  · rw [if_neg c1] at he1
    rw [if_neg c2] at he2
    subst he1
    subst he2
    exact hinv s1 hs1 s2 hs2 ha1 ha2 hsome heq hf

/-- An INSERT write preserves room-date exclusivity provided the inserted row,
when it is active with a room, targets a free room+date. -/
lemma roomDateExclusive_insert (db : DB) (r : Reserva)
    (hinv : roomDateExclusive db)
    (hsafe : ∀ h, r.habitacion = some h → esActiva r.estado = true →
      esta_disponible db h r.fecha_reserva = true) :
    roomDateExclusive (dbGuardar db r false) := by
  intro r1 hr1 r2 hr2 ha1 ha2 hsome heq hf
  have hr1' : r1 ∈ db.reservas ++ [r] := hr1
  have hr2' : r2 ∈ db.reservas ++ [r] := hr2
  rw [List.mem_append, List.mem_singleton] at hr1' hr2'
  rcases hr1' with hm1 | rfl <;> rcases hr2' with hm2 | rfl
  · exact hinv r1 hm1 r2 hm2 ha1 ha2 hsome heq hf
  · obtain ⟨h, hh⟩ := Option.isSome_iff_exists.mp hsome
    have hdisp := hsafe h (heq ▸ hh) ha2
    exfalso
    have hf' : r1.fecha_reserva = r2.fecha_reserva := hf
    exact esta_disponible_eq_true.mp hdisp r1 hm1 ⟨hh, hf', ha1⟩
  · obtain ⟨h, hh⟩ := Option.isSome_iff_exists.mp hsome
    have hdisp := hsafe h hh ha1
    exfalso
    exact esta_disponible_eq_true.mp hdisp r2 hm2 ⟨heq ▸ hh, hf.symm, ha2⟩
  · rfl

/-- A reservation row that is already stored cannot pass puede_confirmar: when
it is pending with a room, its own active row makes esta_disponible fail. -/
lemma puede_confirmar_false_of_mem (db : DB) (r : Reserva) (hm : r ∈ db.reservas) :
    puede_confirmar db r = false := by
  unfold puede_confirmar
  cases hh : r.habitacion with
  | none => rfl
  | some h =>
    by_cases hp : r.estado = .pendiente
    · have hocc : db.reservas.any (ocupa h r.fecha_reserva) = true :=
        List.any_eq_true.mpr ⟨r, hm, ocupa_eq_true.mpr ⟨hh, rfl, by rw [hp]; rfl⟩⟩
      have : esta_disponible db h r.fecha_reserva = false := by
        simp [esta_disponible, hocc]
      simp [this]
    · simp [hp]

/-- Each step of the bulk confirmation leaves the database and the success
counter unchanged and appends exactly one failure message. -/
lemma pasoMasiva_fixed (db : DB) (n : Nat) (msgs : List String) (rid : Nat) :
    ∃ m : String, pasoMasiva (db, n, msgs) rid = (db, n, msgs ++ [m]) := by
  unfold pasoMasiva
  cases hf : findReserva db rid with
  | none => exact ⟨_, rfl⟩
  | some r =>
    have hm : r ∈ db.reservas := List.mem_of_find?_eq_some hf
    have hpc : puede_confirmar db r = false := puede_confirmar_false_of_mem db r hm
    dsimp only
    rw [hpc]
    exact ⟨_, rfl⟩

/-- Folding the bulk confirmation never changes the database or the success
counter, and produces one failure message per id. -/
lemma masiva_fold (db : DB) (ids : List Nat) : ∀ (n : Nat) (msgs : List String),
    (ids.foldl pasoMasiva (db, n, msgs)).1 = db ∧
    (ids.foldl pasoMasiva (db, n, msgs)).2.1 = n ∧
    (ids.foldl pasoMasiva (db, n, msgs)).2.2.length = msgs.length + ids.length := by
  induction ids with
  | nil => intro n msgs; exact ⟨rfl, rfl, by simp⟩
  | cons a t ih =>
    intro n msgs
    obtain ⟨m, hm⟩ := pasoMasiva_fixed db n msgs a
    rw [List.foldl_cons, hm]
    obtain ⟨h1, h2, h3⟩ := ih n (msgs ++ [m])
    refine ⟨h1, h2, ?_⟩
    rw [h3]
    simp
    omega

/-- confirmar_reserva_masiva confirms nothing: the database is unchanged, the
success count is zero, and every id produces a failure message. -/
lemma confirmar_reserva_masiva_spec (db : DB) (ids : List Nat) :
    (confirmar_reserva_masiva db ids).1 = db ∧
    (confirmar_reserva_masiva db ids).2.1 = 0 ∧
    (confirmar_reserva_masiva db ids).2.2.length = ids.length := by
  have h := masiva_fold db ids 0 []
  simpa [confirmar_reserva_masiva] using h

/-- Creation preserves room-date exclusivity: the insert only happens after
esta_disponible approved the chosen room+date. -/
lemma crear_preserves_inv (db : DB) (hu f p ho : Nat) (hab? : Option Nat)
    (hinv : roomDateExclusive db) :
    roomDateExclusive (crear_reserva_desde_admin db hu f p ho hab?).1 := by
  have htail : ∀ habitacion : Habitacion,
      roomDateExclusive (crearConHabitacion db hu f p habitacion).1 := by
    intro habitacion
    unfold crearConHabitacion
    by_cases hd : esta_disponible db habitacion.id f = true
    · rw [if_pos hd]
      dsimp only
      rw [saveReserva_insert]
      dsimp only
      apply roomDateExclusive_insert db _ hinv
      intro h hh _
      cases hh
      exact hd
    · rw [if_neg hd]
      exact hinv
  unfold crear_reserva_desde_admin
  split
  case _ =>
    split
    case _ hid =>
      split
      case _ => exact hinv
      case _ habitacion _ => exact htail habitacion
    case _ =>
      split
      case _ => exact hinv
      case _ habitacion _ => exact htail habitacion
  case _ => exact hinv

/-- The admin confirm view preserves room-date exclusivity: it only writes
after esta_disponible approved the reservation's room+date. -/
lemma confirmar_view_preserves_inv (db : DB) (rid : Nat)
    (hinv : roomDateExclusive db) :
    roomDateExclusive (confirmar_reserva_view db rid).1 := by
  unfold confirmar_reserva_view
  split
  case _ => exact hinv
  case _ reserva _ =>
    split
    case _ => exact hinv
    case _ h hh =>
      by_cases hd : esta_disponible db h reserva.fecha_reserva = true
      · rw [if_pos hd]
        split
        case _ db' hsave =>
          rw [saveReserva_ok_eq hsave]
          apply roomDateExclusive_update db _ hinv
          intro h' hh' _
          have : h' = h := by
            rw [hh] at hh'
            exact (Option.some.inj hh').symm
          rw [this]
          exact hd
        case _ => exact hinv
      · rw [if_neg hd]
        split
        case _ => exact hinv
        case _ =>
          dsimp only
          split
          case _ => exact hinv
          case _ => exact hinv

/-- The admin cancel view preserves room-date exclusivity: the written row is
cancelada, hence inactive. -/
lemma cancelar_view_preserves_inv (db : DB) (rid : Nat)
    (hinv : roomDateExclusive db) :
    roomDateExclusive (cancelar_reserva_view db rid).1 := by
  unfold cancelar_reserva_view
  split
  case _ => exact hinv
  case _ reserva _ =>
    rw [saveReserva_ok_of_not_confirmada (by intro hc; cases hc)]
    apply roomDateExclusive_update db _ hinv
    intro h _ hact
    cases hact

/-- Room reassignment via cambiar_habitacion_reserva preserves room-date
exclusivity: the write only happens after esta_disponible approved the new
room on the reservation's date. -/
lemma reasignar_preserves_inv (db : DB) (rid nid : Nat)
    (hinv : roomDateExclusive db) :
    roomDateExclusive (cambiar_habitacion_reserva db rid nid).1 := by
  unfold cambiar_habitacion_reserva
  split
  case _ reserva nueva _ _ =>
    by_cases hd : esta_disponible db nueva.id reserva.fecha_reserva = true
    · rw [if_neg (by rw [hd]; simp)]
      split
      case _ => exact hinv
      case _ =>
        split
        case _ db' hsave =>
          rw [saveReserva_ok_eq hsave]
          apply roomDateExclusive_update db _ hinv
          intro h hh _
          have : h = nueva.id := (Option.some.inj hh).symm
          rw [this]
          exact hd
        case _ => exact hinv
    · rw [if_pos (by rw [Bool.not_eq_true] at hd; rw [hd]; rfl)]
      exact hinv
  case _ => exact hinv

/-- Every admin operation preserves room-date exclusivity. -/
lemma applyOp_preserves_inv (db : DB) (op : AdminOp) (hinv : roomDateExclusive db) :
    roomDateExclusive (applyOp db op) := by
  cases op with
  | crear hu f p ho hab => exact crear_preserves_inv db hu f p ho hab hinv
  | confirmar rid => exact confirmar_view_preserves_inv db rid hinv
  | confirmarMasiva ids =>
    have h := (confirmar_reserva_masiva_spec db ids).1
    show roomDateExclusive (confirmar_reserva_masiva db ids).1
    rw [h]
    exact hinv
  | cancelar rid => exact cancelar_view_preserves_inv db rid hinv
  | reasignar rid nid => exact reasignar_preserves_inv db rid nid hinv

/-- An UPDATE write preserves distinctness of reservation primary keys. -/
lemma reservaIdsNodup_update (db : DB) (r : Reserva) (hnd : reservaIdsNodup db) :
    reservaIdsNodup (dbGuardar db r true) := by
  unfold reservaIdsNodup
  rw [dbGuardar_update_ids]
  exact hnd

/-- Inserting a row with the fresh primary key preserves distinctness. -/
lemma reservaIdsNodup_insert (db : DB) (r : Reserva) (hnd : reservaIdsNodup db)
    (hid : r.id = freshReservaId db) :
    reservaIdsNodup (dbGuardar db r false) := by
  unfold reservaIdsNodup
  show ((db.reservas ++ [r]).map Reserva.id).Nodup
  rw [List.map_append]
  rw [List.nodup_append]
  refine ⟨hnd, by simp, ?_⟩
  intro x hx
  simp only [List.map_cons, List.map_nil, List.mem_singleton]
  intro hx1
  rw [hx1, hid] at hx
  exact freshReservaId_not_mem db hx

/-- Every admin operation preserves distinctness of reservation primary keys. -/
lemma applyOp_preserves_nodup (db : DB) (op : AdminOp) (hnd : reservaIdsNodup db) :
    reservaIdsNodup (applyOp db op) := by
  cases op with
  | crear hu f p ho hab =>
    show reservaIdsNodup (crear_reserva_desde_admin db hu f p ho hab).1
    have htail : ∀ habitacion : Habitacion,
        reservaIdsNodup (crearConHabitacion db hu f p habitacion).1 := by
      intro habitacion
      unfold crearConHabitacion
      by_cases hd : esta_disponible db habitacion.id f = true
      · rw [if_pos hd]
        dsimp only
        rw [saveReserva_insert]
        dsimp only
        exact reservaIdsNodup_insert db _ hnd rfl
      · rw [if_neg hd]
        exact hnd
    unfold crear_reserva_desde_admin
    split
    case _ =>
      split
      case _ hid =>
        split
        case _ => exact hnd
        case _ habitacion _ => exact htail habitacion
      case _ =>
        split
        case _ => exact hnd
        case _ habitacion _ => exact htail habitacion
    case _ => exact hnd
  | confirmar rid =>
    show reservaIdsNodup (confirmar_reserva_view db rid).1
    unfold confirmar_reserva_view
    split
    case _ => exact hnd
    case _ reserva _ =>
      split
      case _ => exact hnd
      case _ h hh =>
        by_cases hd : esta_disponible db h reserva.fecha_reserva = true
        · rw [if_pos hd]
          split
          case _ db' hsave =>
            rw [saveReserva_ok_eq hsave]
            exact reservaIdsNodup_update db _ hnd
          case _ => exact hnd
        · rw [if_neg hd]
          split
          case _ => exact hnd
          case _ =>
            dsimp only
            split
            case _ => exact hnd
            case _ => exact hnd
  | confirmarMasiva ids =>
    have h := (confirmar_reserva_masiva_spec db ids).1
    show reservaIdsNodup (confirmar_reserva_masiva db ids).1
    rw [h]
    exact hnd
  | cancelar rid =>
    show reservaIdsNodup (cancelar_reserva_view db rid).1
    unfold cancelar_reserva_view
    split
    case _ => exact hnd
    case _ reserva _ =>
      rw [saveReserva_ok_of_not_confirmada (by intro hc; cases hc)]
      exact reservaIdsNodup_update db _ hnd
  | reasignar rid nid =>
    show reservaIdsNodup (cambiar_habitacion_reserva db rid nid).1
    unfold cambiar_habitacion_reserva
    split
    case _ reserva nueva _ _ =>
      split
      case _ => exact hnd
      case _ =>
        split
        case _ => exact hnd
        case _ =>
          split
          case _ db' hsave =>
            rw [saveReserva_ok_eq hsave]
            exact reservaIdsNodup_update db _ hnd
          case _ => exact hnd
    case _ => exact hnd

/-- Exclusivity and key distinctness hold after any operation sequence. -/
lemma applyOps_preserves (ops : List AdminOp) : ∀ db : DB,
    roomDateExclusive db → reservaIdsNodup db →
    roomDateExclusive (applyOps db ops) ∧ reservaIdsNodup (applyOps db ops) := by
  induction ops with
  | nil => intro db hinv hnd; exact ⟨hinv, hnd⟩
  | cons op t ih =>
    intro db hinv hnd
    have h1 := applyOp_preserves_inv db op hinv
    have h2 := applyOp_preserves_nodup db op hnd
    exact ih (applyOp db op) h1 h2

instance (db : DB) : Decidable (reservaIdsNodup db) := by
  unfold reservaIdsNodup
  exact inferInstance

instance (db : DB) : Decidable (habitacionIdsNodup db) := by
  unfold habitacionIdsNodup
  exact inferInstance

/-!
Concrete fixtures used by counterexamples and witnesses.
-/

/-- A hotel with two target rooms. -/
def hotelW : Hotel := ⟨1, 2, true⟩

/-- Room 1 of the hotel, four seats. -/
def habW1 : Habitacion := ⟨1, 1, "1", 4⟩

/-- Room 2 of the hotel, two seats. -/
def habW2 : Habitacion := ⟨2, 1, "2", 2⟩

/-- Room 3 of the hotel, one seat. -/
def habW3 : Habitacion := ⟨3, 1, "3", 1⟩

/-- A guest. -/
def huespedW : Huesped := ⟨1, "Ana", "ana@mail.com", "123"⟩

/-- A confirmed reservation occupying room 1 on date 5. -/
def reservaOcupante : Reserva := ⟨1, 1, 5, 2, some 1, .confirmada⟩

/-- Database in which room 1 is taken on date 5. -/
def dbOcupada : DB := ⟨[hotelW], [habW1], [huespedW], [reservaOcupante]⟩

/-- A brand-new reservation written directly with estado confirmada for the
already-taken room 1 on date 5. -/
def reservaNuevaConfirmada : Reserva := ⟨2, 1, 5, 2, some 1, .confirmada⟩

/-- The database after that direct write: two active reservations for room 1
on date 5. -/
def dbDobleConfirmada : DB :=
  ⟨[hotelW], [habW1], [huespedW], [reservaOcupante, reservaNuevaConfirmada]⟩

/-- An operation sequence exercising every admin operation. -/
def opsW : List AdminOp :=
  [.cancelar 1, .crear 1 5 2 1 none, .confirmar 2, .reasignar 2 1, .confirmarMasiva [1, 2]]

/-- C1 counterexample: a brand-new reservation written directly with status
confirmada for a room+date already held by an active reservation is NOT
rejected at write time — Reserva.save skips the conflict check when self.pk is
unset, the insert succeeds, and room-date exclusivity is violated. -/
theorem save_nueva_confirmada_no_rechazada :
    saveReserva dbOcupada reservaNuevaConfirmada false = .ok dbDobleConfirmada ∧
    ¬ roomDateExclusive dbDobleConfirmada := by
  constructor
  · rfl
  · decide

/-- C1 (amended): room-date exclusivity is an invariant of the engine's
operation suite — any sequence of create/confirm/cancel/reassign operations
preserves it (together with primary-key distinctness) — and a brand-new
reservation created with status confirmada through crear_reserva_desde_admin
for a room+date already held by an active reservation is rejected by the
pre-write esta_disponible check (not by the save write itself), leaving the
database unchanged. -/
theorem exclusividad_por_operaciones (db : DB) (ops : List AdminOp)
    (huespedId fecha cantidad_personas hotelId habitacionId : Nat) (hab : Habitacion)
    (hinv : roomDateExclusive db) (hnd : reservaIdsNodup db)
    (hhu : (findHuesped db huespedId).isSome = true)
    (hho : (findHotel db hotelId).isSome = true)
    (hhab : findHabitacion db habitacionId = some hab)
    (hocc : esta_disponible db hab.id fecha = false) :
    roomDateExclusive (applyOps db ops) ∧ reservaIdsNodup (applyOps db ops) ∧
    crear_reserva_desde_admin db huespedId fecha cantidad_personas hotelId (some habitacionId)
      = (db, none, "La habitación seleccionada no está disponible") := by
  obtain ⟨h1, h2⟩ := applyOps_preserves ops db hinv hnd
  refine ⟨h1, h2, ?_⟩
  obtain ⟨hu, hhu'⟩ := Option.isSome_iff_exists.mp hhu
  obtain ⟨ho, hho'⟩ := Option.isSome_iff_exists.mp hho
  unfold crear_reserva_desde_admin
  rw [hhu', hho']
  dsimp only
  rw [hhab]
  dsimp only
  unfold crearConHabitacion
  rw [if_neg (by rw [hocc]; simp)]

/-- C1 witness. -/
theorem exclusividad_por_operaciones_witness :
    roomDateExclusive (applyOps dbOcupada opsW) ∧ reservaIdsNodup (applyOps dbOcupada opsW) ∧
    crear_reserva_desde_admin dbOcupada 1 5 2 1 (some 1)
      = (dbOcupada, none, "La habitación seleccionada no está disponible") :=
  exclusividad_por_operaciones dbOcupada opsW 1 5 2 1 1 habW1 (by decide) (by decide)
    (by decide) (by decide) (by decide) (by decide)

/-- C3: a write that sets an existing reservation's status to confirmada while
another active reservation occupies the same room+date is rejected by
Reserva.save with the conflict ValueError before the write is applied, and the
database — in particular the reservation's persisted status — is unchanged. -/
theorem confirmar_conflicto_rechazado (db : DB) (rid : Nat) (r s : Reserva)
    (hr : findReserva db rid = some r) (hnc : r.estado ≠ .confirmada)
    (hs : s ∈ db.reservas) (hsid : s.id ≠ r.id)
    (hsh : s.habitacion = r.habitacion) (hsome : r.habitacion.isSome = true)
    (hsf : s.fecha_reserva = r.fecha_reserva) (hact : esActiva s.estado = true) :
    confirmar_reserva_directa db rid
      = (db, some "La habitación ya está reservada para esta fecha") := by
  unfold confirmar_reserva_directa
  rw [hr]
  dsimp only
  rw [if_neg hnc]
  have hconf : hayConflicto db { r with estado := .confirmada } = true :=
    hayConflicto_eq_true.mpr ⟨s, hs, hsh, hsf, hact, hsid⟩
  have hsave : saveReserva db { r with estado := .confirmada } true
      = .error "La habitación ya está reservada para esta fecha" := by
    unfold saveReserva
    rw [if_pos ⟨rfl, rfl, hsome, hconf⟩]
  rw [hsave]

/-- A pending reservation for already-taken room 1 on date 5. -/
def reservaPendienteTardia : Reserva := ⟨2, 1, 5, 2, some 1, .pendiente⟩

/-- Database where room 1 on date 5 holds a confirmed reservation and a later
pending one waits for the same room+date. -/
def dbConflicto : DB :=
  ⟨[hotelW], [habW1], [huespedW], [reservaOcupante, reservaPendienteTardia]⟩

/-- C3 witness. -/
theorem confirmar_conflicto_rechazado_witness :
    confirmar_reserva_directa dbConflicto 2
      = (dbConflicto, some "La habitación ya está reservada para esta fecha") :=
  confirmar_conflicto_rechazado dbConflicto 2 reservaPendienteTardia reservaOcupante
    (by decide) (by decide) (by decide) (by decide) (by decide) (by decide) (by decide)
    (by decide)

/-- C4: puede_confirmar is false for every stored pending reservation with an
assigned room — the availability check counts the reservation's own pending
row — and consequently confirmar_reserva_masiva confirms zero reservations and
reports one failure per id, leaving the database unchanged. -/
theorem puede_confirmar_pendiente_y_masiva (db : DB) (r : Reserva) (ids : List Nat)
    (hm : r ∈ db.reservas) (hp : r.estado = .pendiente) (hh : r.habitacion.isSome = true) :
    puede_confirmar db r = false ∧
    (confirmar_reserva_masiva db ids).1 = db ∧
    (confirmar_reserva_masiva db ids).2.1 = 0 ∧
    (confirmar_reserva_masiva db ids).2.2.length = ids.length := by
  obtain ⟨h1, h2, h3⟩ := confirmar_reserva_masiva_spec db ids
  exact ⟨puede_confirmar_false_of_mem db r hm, h1, h2, h3⟩

/-- A pending reservation for free room 1 on date 7. -/
def reservaPendienteSola : Reserva := ⟨1, 1, 7, 2, some 1, .pendiente⟩

/-- Database holding only that pending reservation. -/
def dbPendiente : DB := ⟨[hotelW], [habW1], [huespedW], [reservaPendienteSola]⟩

/-- C4 witness. -/
theorem puede_confirmar_pendiente_y_masiva_witness :
    puede_confirmar dbPendiente reservaPendienteSola = false ∧
    (confirmar_reserva_masiva dbPendiente [1]).1 = dbPendiente ∧
    (confirmar_reserva_masiva dbPendiente [1]).2.1 = 0 ∧
    (confirmar_reserva_masiva dbPendiente [1]).2.2.length = [1].length :=
  puede_confirmar_pendiente_y_masiva dbPendiente reservaPendienteSola [1]
    (by decide) (by decide) (by decide)

/-- A looked-up reservation carries the id it was looked up by. -/
lemma findReserva_id {db : DB} {rid : Nat} {r : Reserva}
    (hr : findReserva db rid = some r) : r.id = rid := by
  have h' := List.find?_some hr
  simpa using h'

/-- Looking a reservation up after an UPDATE write finds the updated row. -/
lemma findReserva_update (db : DB) (r' : Reserva) (i : Nat) :
    findReserva (dbGuardar db r' true) i
      = (findReserva db i).map (fun s => if s.id = r'.id then r' else s) := by
  unfold findReserva
  show (db.reservas.map _).find? _ = _
  apply find?_map_pres
  intro x
  by_cases c : x.id = r'.id
  · simp [c]
  · simp [c]

/-- Repeating the same UPDATE write is a no-op. -/
lemma map_update_idem (l : List Reserva) (r : Reserva) :
    (l.map (fun s => if s.id = r.id then r else s)).map
        (fun s => if s.id = r.id then r else s)
      = l.map (fun s => if s.id = r.id then r else s) := by
  rw [List.map_map]
  apply List.map_congr_left
  intro s _
  by_cases c : s.id = r.id
  · simp [Function.comp, c]
  · simp [Function.comp, c]

/-- Writing the same row twice leaves the database where the first write put
it. -/
lemma dbGuardar_update_idem (db : DB) (r : Reserva) :
    dbGuardar (dbGuardar db r true) r true = dbGuardar db r true := by
  have hlist := map_update_idem db.reservas r
  show ({ db with reservas := ((db.reservas.map (fun s => if s.id = r.id then r else s)).map
      (fun s => if s.id = r.id then r else s)) } : DB)
    = { db with reservas := (db.reservas.map (fun s => if s.id = r.id then r else s)) }
  rw [hlist]

/-- C2 counterexample: the admin confirm view does not exclude the reservation
itself from the availability re-check — for a lone pending reservation, with
no other active reservation on its room+date, confirmation still fails (here
with the no-rooms-available outcome) instead of setting confirmada. -/
theorem confirmar_view_falla_sin_conflicto :
    (∀ s ∈ dbPendiente.reservas, s.id = reservaPendienteSola.id) ∧
    confirmar_reserva_view dbPendiente 1 = (dbPendiente, .sinDisponibles) := by
  exact ⟨by decide, by decide⟩

/-- C2 (amended): the confirm view re-checks esta_disponible on the
reservation's room and date WITHOUT excluding the reservation itself; it
confirms iff no active reservation at all (the reservation's own pending row
included) occupies the room+date; when the check fails the database is
unchanged, and when it passes the reservation's row is rewritten to
confirmada. -/
theorem confirmar_view_caracterizacion (db : DB) (rid h : Nat) (r : Reserva)
    (hr : findReserva db rid = some r) (hhab : r.habitacion = some h) :
    ((confirmar_reserva_view db rid).2 = .confirmada ↔
      esta_disponible db h r.fecha_reserva = true) ∧
    (esta_disponible db h r.fecha_reserva = false →
      (confirmar_reserva_view db rid).1 = db) ∧
    (esta_disponible db h r.fecha_reserva = true →
      findReserva (confirmar_reserva_view db rid).1 rid
        = some { r with estado := .confirmada }) := by
  have hrid : r.id = rid := findReserva_id hr
  unfold confirmar_reserva_view
  rw [hr]
  dsimp only
  rw [hhab]
  dsimp only
  by_cases hd : esta_disponible db h r.fecha_reserva = true
  · rw [if_pos hd]
    have hnc : hayConflicto db
        ⟨r.id, r.huespedId, r.fecha_reserva, r.cantidad_personas, some h, .confirmada⟩
        = false :=
      hayConflicto_eq_false_of_disponible rfl hd
    have hsave : saveReserva db
        ⟨r.id, r.huespedId, r.fecha_reserva, r.cantidad_personas, some h, .confirmada⟩ true
        = .ok (dbGuardar db
            ⟨r.id, r.huespedId, r.fecha_reserva, r.cantidad_personas, some h, .confirmada⟩
            true) := by
      unfold saveReserva
      rw [if_neg]
      intro hcond
      rw [hnc] at hcond
      exact absurd hcond.2.2.2 (by simp)
    rw [hsave]
    dsimp only
    refine ⟨by simp [hd], ?_, ?_⟩
    · intro hf
      rw [hf] at hd
      cases hd
    · intro _
      rw [findReserva_update]
      dsimp only
      rw [hrid, hr]
      simp [hrid]
  · rw [Bool.not_eq_true] at hd
    rw [if_neg (by rw [hd]; simp)]
    have hfail : ∀ X : ResultadoConfirmar, X ≠ .confirmada →
        ((X = ResultadoConfirmar.confirmada ↔
          esta_disponible db h r.fecha_reserva = true) ∧
        (esta_disponible db h r.fecha_reserva = false → db = db) ∧
        (esta_disponible db h r.fecha_reserva = true →
          findReserva db rid
            = some ⟨r.id, r.huespedId, r.fecha_reserva, r.cantidad_personas, some h,
                .confirmada⟩)) := by
      intro X hX
      refine ⟨?_, fun _ => rfl, ?_⟩
      · constructor
        · intro hc
          exact absurd hc hX
        · intro ht
          rw [ht] at hd
          cases hd
      · intro ht
        rw [ht] at hd
        cases hd
    split
    case _ => exact hfail _ (by intro hc; exact ResultadoConfirmar.noConfusion hc)
    case _ hab _ =>
      split
      case _ => exact hfail _ (by intro hc; exact ResultadoConfirmar.noConfusion hc)
      case _ => exact hfail _ (by intro hc; exact ResultadoConfirmar.noConfusion hc)

/-- C2 witness. -/
theorem confirmar_view_caracterizacion_witness :
    ((confirmar_reserva_view dbPendiente 1).2 = .confirmada ↔
      esta_disponible dbPendiente 1 reservaPendienteSola.fecha_reserva = true) ∧
    (esta_disponible dbPendiente 1 reservaPendienteSola.fecha_reserva = false →
      (confirmar_reserva_view dbPendiente 1).1 = dbPendiente) ∧
    (esta_disponible dbPendiente 1 reservaPendienteSola.fecha_reserva = true →
      findReserva (confirmar_reserva_view dbPendiente 1).1 1
        = some { reservaPendienteSola with estado := .confirmada }) :=
  confirmar_view_caracterizacion dbPendiente 1 1 reservaPendienteSola (by decide) (by decide)

/-- A rejected reservation for room 1 on date 5. -/
def reservaRechazada : Reserva := ⟨1, 1, 5, 2, some 1, .rechazada⟩

/-- Database holding only that rejected reservation. -/
def dbRechazada : DB := ⟨[hotelW], [habW1], [huespedW], [reservaRechazada]⟩

/-- C5 counterexample: the admin cancel view has no transition guard — it
cancels a reservation whose status is rechazada (not pendiente or confirmada,
puede_cancelar = false), and a second cancel of an already-cancelled
reservation re-fires the user-facing message side effect. -/
theorem cancelar_sin_guarda :
    puede_cancelar reservaRechazada = false ∧
    (cancelar_reserva_view dbRechazada 1).2 = ["Reserva #1 cancelada"] ∧
    (findReserva (cancelar_reserva_view dbRechazada 1).1 1).map Reserva.estado
      = some .cancelada ∧
    (cancelar_reserva_view (cancelar_reserva_view dbRechazada 1).1 1).2
      = ["Reserva #1 cancelada"] := by
  exact ⟨by decide, by decide, by decide, by decide⟩

/-- C5 (amended): the cancel view sets estado to cancelada from ANY current
status (it never consults puede_cancelar) and never errors; a second cancel
leaves the database exactly where the first left it (state-idempotent) but
re-fires one user-facing message per call rather than being a no-op. -/
theorem cancelar_view_total_e_idempotente (db : DB) (rid : Nat) (r : Reserva)
    (hr : findReserva db rid = some r) :
    (cancelar_reserva_view db rid).2 = ["Reserva #" ++ toString rid ++ " cancelada"] ∧
    findReserva (cancelar_reserva_view db rid).1 rid = some { r with estado := .cancelada } ∧
    (cancelar_reserva_view (cancelar_reserva_view db rid).1 rid).1
      = (cancelar_reserva_view db rid).1 ∧
    (cancelar_reserva_view (cancelar_reserva_view db rid).1 rid).2
      = ["Reserva #" ++ toString rid ++ " cancelada"] := by
  have hrid : r.id = rid := findReserva_id hr
  have hsave : saveReserva db { r with estado := .cancelada } true
      = .ok (dbGuardar db { r with estado := .cancelada } true) :=
    saveReserva_ok_of_not_confirmada (by intro hc; exact Estado.noConfusion hc)
  have hstep : cancelar_reserva_view db rid
      = (dbGuardar db { r with estado := .cancelada } true,
         ["Reserva #" ++ toString rid ++ " cancelada"]) := by
    unfold cancelar_reserva_view
    rw [hr]
    dsimp only
    rw [hsave]
  have hfind1 : findReserva (dbGuardar db { r with estado := .cancelada } true) rid
      = some { r with estado := .cancelada } := by
    rw [findReserva_update]
    dsimp only
    rw [hrid, hr]
    simp [hrid]
  have hcc : ({ ({ r with estado := .cancelada } : Reserva) with
      estado := .cancelada } : Reserva) = { r with estado := .cancelada } := rfl
  have hsave2 : saveReserva (dbGuardar db { r with estado := .cancelada } true)
      { r with estado := .cancelada } true
      = .ok (dbGuardar (dbGuardar db { r with estado := .cancelada } true)
          { r with estado := .cancelada } true) :=
    saveReserva_ok_of_not_confirmada (by intro hc; exact Estado.noConfusion hc)
  have hstep2 : cancelar_reserva_view (dbGuardar db { r with estado := .cancelada } true) rid
      = (dbGuardar (dbGuardar db { r with estado := .cancelada } true)
          { r with estado := .cancelada } true,
         ["Reserva #" ++ toString rid ++ " cancelada"]) := by
    unfold cancelar_reserva_view
    rw [hfind1]
    dsimp only
    rw [hcc, hsave2]
  refine ⟨?_, ?_, ?_, ?_⟩
  · rw [hstep]
  · rw [hstep]
    exact hfind1
  · rw [hstep]
    dsimp only
    rw [hstep2]
    dsimp only
    rw [dbGuardar_update_idem]
  · rw [hstep]
    dsimp only
    rw [hstep2]

/-- C5 witness. -/
theorem cancelar_view_total_e_idempotente_witness :
    (cancelar_reserva_view dbPendiente 1).2 = ["Reserva #" ++ toString 1 ++ " cancelada"] ∧
    findReserva (cancelar_reserva_view dbPendiente 1).1 1
      = some { reservaPendienteSola with estado := .cancelada } ∧
    (cancelar_reserva_view (cancelar_reserva_view dbPendiente 1).1 1).1
      = (cancelar_reserva_view dbPendiente 1).1 ∧
    (cancelar_reserva_view (cancelar_reserva_view dbPendiente 1).1 1).2
      = ["Reserva #" ++ toString 1 ++ " cancelada"] :=
  cancelar_view_total_e_idempotente dbPendiente 1 reservaPendienteSola (by decide)

/-- A pending reservation for three people in room 1 on date 3. -/
def reservaTres : Reserva := ⟨1, 1, 3, 3, some 1, .pendiente⟩

/-- Database with a big room 1 and a one-seat room 3. -/
def dbTres : DB := ⟨[hotelW], [habW1, habW3], [huespedW], [reservaTres]⟩

/-- The database after the admin room-change view moved the three-person
reservation into the one-seat room 3. -/
def dbTresMovida : DB := ⟨[hotelW], [habW1, habW3], [huespedW], [⟨1, 1, 3, 3, some 3, .pendiente⟩]⟩

/-- C6 counterexample: the admin room-change view applies the posted room with
no capacity (or availability) validation — reassigning a three-person
reservation to a one-seat room succeeds and rewrites the room reference,
contradicting the claim that such a reassignment always fails and never
mutates the reservation. -/
theorem cambiar_view_sin_validacion :
    habW3.cantidad_plazas < reservaTres.cantidad_personas ∧
    cambiar_habitacion_view dbTres 1 3 = (dbTresMovida, true) := by
  exact ⟨by decide, by decide⟩

/-- C6 (amended): the model-level reassignment function
cambiar_habitacion_reserva does validate: with a target room whose capacity is
below the party size it always fails and leaves the database unchanged, and
when the room is available the failure is the insufficient-capacity message
(when the room is also unavailable, the unavailability error wins); the admin
room-change view performs no such validation. -/
theorem cambiar_reserva_capacidad_insuficiente (db : DB) (rid nid : Nat) (r : Reserva)
    (nh : Habitacion) (hr : findReserva db rid = some r)
    (hn : findHabitacion db nid = some nh)
    (hcap : nh.cantidad_plazas < r.cantidad_personas) :
    (cambiar_habitacion_reserva db rid nid).1 = db ∧
    (cambiar_habitacion_reserva db rid nid).2.1 = false ∧
    (esta_disponible db nh.id r.fecha_reserva = true →
      (cambiar_habitacion_reserva db rid nid).2.2
        = "La habitación no tiene capacidad suficiente") := by
  unfold cambiar_habitacion_reserva
  rw [hr, hn]
  dsimp only
  by_cases hd : esta_disponible db nh.id r.fecha_reserva = true
  · rw [if_neg (by rw [hd]; simp)]
    rw [if_pos hcap]
    exact ⟨rfl, rfl, fun _ => rfl⟩
  · rw [Bool.not_eq_true] at hd
    rw [if_pos (by rw [hd]; rfl)]
    refine ⟨rfl, rfl, ?_⟩
    intro ht
    rw [ht] at hd
    cases hd

/-- C6 witness. -/
theorem cambiar_reserva_capacidad_insuficiente_witness :
    (cambiar_habitacion_reserva dbTres 1 3).1 = dbTres ∧
    (cambiar_habitacion_reserva dbTres 1 3).2.1 = false ∧
    (esta_disponible dbTres habW3.id reservaTres.fecha_reserva = true →
      (cambiar_habitacion_reserva dbTres 1 3).2.2
        = "La habitación no tiene capacidad suficiente") :=
  cambiar_reserva_capacidad_insuficiente dbTres 1 3 reservaTres habW3
    (by decide) (by decide) (by decide)

/-- Every oracle pick lands in the weighted capacity list. -/
lemma elegirPlazas_mem : ∀ k : Fin 5, elegirPlazas k ∈ tipos_plazas := by decide

/-- All generated rooms belong to the hotel, so the hotel filter keeps them. -/
lemma filter_nuevasHabitaciones (db : DB) (hotel : Hotel) (rnd : Nat → Fin 5) :
    (nuevasHabitaciones db hotel rnd).filter (fun h => decide (h.hotelId = hotel.id))
      = nuevasHabitaciones db hotel rnd := by
  apply List.filter_eq_self.mpr
  intro hb hmem
  obtain ⟨j, _, rfl⟩ := List.mem_map.mp hmem
  simp

/-- On a hotel with no rooms, generation appends exactly the generated list
and reports cantidad_habitaciones. -/
lemma generar_eq_of_empty (db : DB) (hotel : Hotel) (rnd : Nat → Fin 5)
    (h0 : (db.habitaciones.filter (fun h => decide (h.hotelId = hotel.id))).length = 0) :
    generar_habitaciones db hotel rnd
      = ({ db with habitaciones := db.habitaciones ++ nuevasHabitaciones db hotel rnd },
         hotel.cantidad_habitaciones) := by
  unfold generar_habitaciones
  dsimp only
  rw [if_neg (by rw [h0]; simp)]
  congr 1
  simp [nuevasHabitaciones]

/-- On a hotel that already has rooms, generation is a no-op returning the
existing count. -/
lemma generar_eq_of_nonempty (db : DB) (hotel : Hotel) (rnd : Nat → Fin 5)
    (hne : (db.habitaciones.filter (fun h => decide (h.hotelId = hotel.id))).length ≠ 0) :
    generar_habitaciones db hotel rnd
      = (db, (db.habitaciones.filter (fun h => decide (h.hotelId = hotel.id))).length) := by
  unfold generar_habitaciones
  dsimp only
  rw [if_pos hne]

/-- C7: room generation is idempotent and exact — a hotel that already has
rooms gets nothing new and the existing count back; a hotel with no rooms gets
exactly cantidad_habitaciones rooms numbered "1".."N" whose capacities come
from [1, 2, 2, 3, 4]; and a second generation never pushes the hotel past
cantidad_habitaciones rooms. -/
theorem generar_habitaciones_idempotente (db db2 : DB) (hotel : Hotel)
    (rnd rnd' rnd2 : Nat → Fin 5)
    (h0 : (db.habitaciones.filter (fun h => decide (h.hotelId = hotel.id))).length = 0)
    (hne : (db2.habitaciones.filter (fun h => decide (h.hotelId = hotel.id))).length ≠ 0) :
    (generar_habitaciones db hotel rnd).2 = hotel.cantidad_habitaciones ∧
    ((generar_habitaciones db hotel rnd).1.habitaciones.filter
        (fun h => decide (h.hotelId = hotel.id))).map Habitacion.numero
      = (List.range hotel.cantidad_habitaciones).map (fun j => toString (j + 1)) ∧
    (∀ hb ∈ (generar_habitaciones db hotel rnd).1.habitaciones.filter
        (fun h => decide (h.hotelId = hotel.id)), hb.cantidad_plazas ∈ tipos_plazas) ∧
    ((generar_habitaciones (generar_habitaciones db hotel rnd).1 hotel rnd').1.habitaciones.filter
        (fun h => decide (h.hotelId = hotel.id))).length = hotel.cantidad_habitaciones ∧
    generar_habitaciones db2 hotel rnd2
      = (db2, (db2.habitaciones.filter (fun h => decide (h.hotelId = hotel.id))).length) := by
  have hgen := generar_eq_of_empty db hotel rnd h0
  have hfilter1 : ((generar_habitaciones db hotel rnd).1.habitaciones.filter
      (fun h => decide (h.hotelId = hotel.id))) = nuevasHabitaciones db hotel rnd := by
    rw [hgen]
    dsimp only
    rw [List.filter_append, List.length_eq_zero.mp h0, filter_nuevasHabitaciones]
    rfl
  have hcount1 : ((generar_habitaciones db hotel rnd).1.habitaciones.filter
      (fun h => decide (h.hotelId = hotel.id))).length = hotel.cantidad_habitaciones := by
    rw [hfilter1]
    simp [nuevasHabitaciones]
  refine ⟨?_, ?_, ?_, ?_, ?_⟩
  · rw [hgen]
  · rw [hfilter1]
    unfold nuevasHabitaciones
    rw [List.map_map]
    rfl
  · rw [hfilter1]
    intro hb hmem
    obtain ⟨j, _, rfl⟩ := List.mem_map.mp hmem
    exact elegirPlazas_mem _
  · by_cases hn : hotel.cantidad_habitaciones = 0
    · have hcero : ((generar_habitaciones db hotel rnd).1.habitaciones.filter
          (fun h => decide (h.hotelId = hotel.id))).length = 0 := by
        rw [hcount1, hn]
      have hgen2 := generar_eq_of_empty (generar_habitaciones db hotel rnd).1 hotel rnd' hcero
      rw [hgen2]
      dsimp only
      rw [List.filter_append, filter_nuevasHabitaciones]
      rw [List.length_append]
      rw [hcero]
      simp [nuevasHabitaciones, hn]
    · have hif := generar_eq_of_nonempty (generar_habitaciones db hotel rnd).1 hotel rnd'
        (by rw [hcount1]; exact hn)
      rw [hif]
      exact hcount1
  · exact generar_eq_of_nonempty db2 hotel rnd2 hne

/-- A database whose hotel has no rooms yet. -/
def dbSinHabitaciones : DB := ⟨[hotelW], [], [huespedW], []⟩

/-- A fixed random oracle. -/
def rndW : Nat → Fin 5 := fun _ => 0

/-- Another fixed random oracle. -/
def rndW2 : Nat → Fin 5 := fun k => ⟨k % 5, Nat.mod_lt k (by decide)⟩

/-- C7 witness. -/
theorem generar_habitaciones_idempotente_witness :
    (generar_habitaciones dbSinHabitaciones hotelW rndW).2 = hotelW.cantidad_habitaciones ∧
    ((generar_habitaciones dbSinHabitaciones hotelW rndW).1.habitaciones.filter
        (fun h => decide (h.hotelId = hotelW.id))).map Habitacion.numero
      = (List.range hotelW.cantidad_habitaciones).map (fun j => toString (j + 1)) ∧
    (∀ hb ∈ (generar_habitaciones dbSinHabitaciones hotelW rndW).1.habitaciones.filter
        (fun h => decide (h.hotelId = hotelW.id)), hb.cantidad_plazas ∈ tipos_plazas) ∧
    ((generar_habitaciones (generar_habitaciones dbSinHabitaciones hotelW rndW).1 hotelW
        rndW2).1.habitaciones.filter
        (fun h => decide (h.hotelId = hotelW.id))).length = hotelW.cantidad_habitaciones ∧
    generar_habitaciones dbOcupada hotelW rndW2
      = (dbOcupada, (dbOcupada.habitaciones.filter
          (fun h => decide (h.hotelId = hotelW.id))).length) :=
  generar_habitaciones_idempotente dbSinHabitaciones dbOcupada hotelW rndW rndW2 rndW2
    (by decide) (by decide)

/-- C8: the bulk availability query agrees with the per-room predicate — a
room is returned by habitaciones_disponibles exactly when it belongs to the
hotel and esta_disponible holds for it on the date — and an omitted date
argument defaults to today's date. -/
theorem habitaciones_disponibles_coincide (db : DB) (hid fecha hoy : Nat) (r : Habitacion)
    (hnd : habitacionIdsNodup db) :
    (r ∈ habitaciones_disponibles db hid fecha ↔
      r ∈ db.habitaciones ∧ r.hotelId = hid ∧ esta_disponible db r.id fecha = true) ∧
    habitaciones_disponibles_opt db hid none hoy = habitaciones_disponibles db hid hoy :=
  ⟨mem_habitaciones_disponibles hnd, rfl⟩

/-- C8 witness. -/
theorem habitaciones_disponibles_coincide_witness :
    (habW1 ∈ habitaciones_disponibles dbPendiente 1 7 ↔
      habW1 ∈ dbPendiente.habitaciones ∧ habW1.hotelId = 1 ∧
        esta_disponible dbPendiente habW1.id 7 = true) ∧
    habitaciones_disponibles_opt dbPendiente 1 none 7 = habitaciones_disponibles dbPendiente 1 7 :=
  habitaciones_disponibles_coincide dbPendiente 1 7 7 habW1 (by decide)

/-- Database with a 4-seat room "1" and a 2-seat room "2", no reservations. -/
def dbDosCuartos : DB := ⟨[hotelW], [habW1, habW2], [huespedW], []⟩

/-- C9 counterexample: with both rooms free and a party of two, the automatic
selection picks room "1" with capacity 4 — the first row in the model's
default ordering (ascending numero) — even though room "2" with the smaller
sufficient capacity 2 is eligible; selection is NOT by ascending capacity. -/
theorem crear_auto_ignora_capacidad :
    habW2 ∈ elegibles dbDosCuartos 1 5 2 ∧
    habW2.cantidad_plazas < habW1.cantidad_plazas ∧
    2 ≤ habW2.cantidad_plazas ∧
    (crear_reserva_desde_admin dbDosCuartos 1 5 2 1 none).2.1 = some 1 ∧
    (findReserva (crear_reserva_desde_admin dbDosCuartos 1 5 2 1 none).1 1).map
        Reserva.habitacion = some (some habW1.id) := by
  exact ⟨by decide, by decide, by decide, by decide, by decide⟩

/-- C9 (amended): with no explicit room id, creation selects the FIRST room of
the hotel's availability queryset with capacity ≥ party size, where the
queryset order is the model default — ascending room number (string order) —
not ascending capacity; the selected room has minimal numero among all
eligible rooms, and when no eligible room exists the call fails with the
no-rooms message and creates nothing. -/
theorem crear_auto_por_numero (db : DB) (huespedId fecha cantidad_personas hotelId : Nat)
    (hnd : habitacionIdsNodup db)
    (hhu : (findHuesped db huespedId).isSome = true)
    (hho : (findHotel db hotelId).isSome = true) :
    (elegibles db hotelId fecha cantidad_personas = [] →
      crear_reserva_desde_admin db huespedId fecha cantidad_personas hotelId none
        = (db, none, "No hay habitaciones disponibles")) ∧
    (∀ hab, (elegibles db hotelId fecha cantidad_personas).head? = some hab →
      crear_reserva_desde_admin db huespedId fecha cantidad_personas hotelId none
        = ({ db with reservas := db.reservas ++
              [⟨freshReservaId db, huespedId, fecha, cantidad_personas, some hab.id,
                .confirmada⟩] },
           some (freshReservaId db), "Reserva creada exitosamente") ∧
      (∀ x ∈ elegibles db hotelId fecha cantidad_personas, numeroLe hab x = true)) := by
  obtain ⟨hu, hhu'⟩ := Option.isSome_iff_exists.mp hhu
  obtain ⟨ho, hho'⟩ := Option.isSome_iff_exists.mp hho
  constructor
  · intro hE
    unfold crear_reserva_desde_admin
    rw [hhu', hho']
    dsimp only
    rw [hE]
    rfl
  · intro hab hhead
    have hmemE : hab ∈ elegibles db hotelId fecha cantidad_personas := by
      cases hE : elegibles db hotelId fecha cantidad_personas with
      | nil =>
        rw [hE] at hhead
        cases hhead
      | cons a t =>
        rw [hE] at hhead
        rw [List.head?_cons] at hhead
        rw [← Option.some.inj hhead]
        exact List.mem_cons_self _ _
    have hmemD : hab ∈ habitaciones_disponibles db hotelId fecha := by
      have hm := hmemE
      unfold elegibles at hm
      exact (List.mem_filter.mp hm).1
    have hdisp : esta_disponible db hab.id fecha = true :=
      ((mem_habitaciones_disponibles hnd).mp hmemD).2.2
    constructor
    · unfold crear_reserva_desde_admin
      rw [hhu', hho']
      dsimp only
      rw [hhead]
      dsimp only
      unfold crearConHabitacion
      rw [if_pos hdisp]
      dsimp only
      rw [saveReserva_insert]
      rfl
    · have hpair : (elegibles db hotelId fecha cantidad_personas).Pairwise
          (fun a b => numeroLe a b = true) := by
        unfold elegibles habitaciones_disponibles
        dsimp only
        exact ((pairwise_ordenarPorNumero _).filter _).filter _
      intro x hx
      cases hE : elegibles db hotelId fecha cantidad_personas with
      | nil =>
        rw [hE] at hx
        cases hx
      | cons a t =>
        rw [hE] at hhead hx hpair
        rw [List.head?_cons] at hhead
        have hab_eq : a = hab := Option.some.inj hhead
        rcases List.mem_cons.mp hx with rfl | hxt
        · rw [← hab_eq]
          exact charsLe_refl _
        · rw [← hab_eq]
          exact (List.pairwise_cons.mp hpair).1 x hxt

/-- C9 witness. -/
theorem crear_auto_por_numero_witness :
    (elegibles dbDosCuartos 1 5 2 = [] →
      crear_reserva_desde_admin dbDosCuartos 1 5 2 1 none
        = (dbDosCuartos, none, "No hay habitaciones disponibles")) ∧
    (∀ hab, (elegibles dbDosCuartos 1 5 2).head? = some hab →
      crear_reserva_desde_admin dbDosCuartos 1 5 2 1 none
        = ({ dbDosCuartos with reservas := dbDosCuartos.reservas ++
              [⟨freshReservaId dbDosCuartos, 1, 5, 2, some hab.id, .confirmada⟩] },
           some (freshReservaId dbDosCuartos), "Reserva creada exitosamente") ∧
      (∀ x ∈ elegibles dbDosCuartos 1 5 2, numeroLe hab x = true)) :=
  crear_auto_por_numero dbDosCuartos 1 5 2 1 (by decide) (by decide) (by decide)

/-- C10: guest resolution deduplicates by email — when no guest with the email
exists, exactly one is created carrying the submitted name and phone; when one
exists, no second guest is created and the stored record ends up carrying the
submitted name and phone (updated in place when they differ).  The hypothesis
mirrors get_or_create, which presupposes at most one row per email. -/
theorem resolver_huesped_dedup (db : DB) (nombre email telefono : String)
    (hdedup : db.huespedes.countP (fun h => decide (h.email = email)) ≤ 1) :
    (db.huespedes.find? (fun h => decide (h.email = email)) = none →
      (resolverHuesped db nombre email telefono).1.huespedes
        = db.huespedes ++ [⟨freshHuespedId db, nombre, email, telefono⟩]) ∧
    (∀ h0, db.huespedes.find? (fun h => decide (h.email = email)) = some h0 →
      (resolverHuesped db nombre email telefono).1.huespedes.length
        = db.huespedes.length ∧
      (resolverHuesped db nombre email telefono).1.huespedes.find?
          (fun h => decide (h.email = email))
        = some { h0 with nombre := nombre, telefono := telefono } ∧
      (resolverHuesped db nombre email telefono).2 = h0.id) := by
  constructor
  · intro hnone
    unfold resolverHuesped
    rw [hnone]
  · intro h0 hsome
    unfold resolverHuesped
    rw [hsome]
    dsimp only
    by_cases hdiff : h0.nombre ≠ nombre ∨ h0.telefono ≠ telefono
    · rw [if_pos hdiff]
      refine ⟨by simp, ?_, rfl⟩
      have hp : ∀ x : Huesped,
          (fun h => decide (h.email = email))
            (if x.id = h0.id then { x with nombre := nombre, telefono := telefono } else x)
          = (fun h => decide (h.email = email)) x := by
        intro x
        by_cases c : x.id = h0.id
        · simp [c]
        · simp [c]
      show (db.huespedes.map (fun x =>
          if x.id = h0.id then { x with nombre := nombre, telefono := telefono } else x)).find?
            (fun h => decide (h.email = email))
          = some { h0 with nombre := nombre, telefono := telefono }
      rw [find?_map_pres _ _ hp, hsome]
      simp
    · rw [if_neg hdiff]
      push_neg at hdiff
      obtain ⟨hn, ht⟩ := hdiff
      refine ⟨rfl, ?_, rfl⟩
      show db.huespedes.find? (fun h => decide (h.email = email))
          = some { h0 with nombre := nombre, telefono := telefono }
      rw [hsome]
      obtain ⟨i, n0, e0, t0⟩ := h0
      dsimp only at hn ht
      rw [hn, ht]

/-- C10 witness. -/
theorem resolver_huesped_dedup_witness :
    (dbPendiente.huespedes.find? (fun h => decide (h.email = "ana@mail.com")) = none →
      (resolverHuesped dbPendiente "Berta" "ana@mail.com" "999").1.huespedes
        = dbPendiente.huespedes ++ [⟨freshHuespedId dbPendiente, "Berta", "ana@mail.com", "999"⟩]) ∧
    (∀ h0, dbPendiente.huespedes.find? (fun h => decide (h.email = "ana@mail.com")) = some h0 →
      (resolverHuesped dbPendiente "Berta" "ana@mail.com" "999").1.huespedes.length
        = dbPendiente.huespedes.length ∧
      (resolverHuesped dbPendiente "Berta" "ana@mail.com" "999").1.huespedes.find?
          (fun h => decide (h.email = "ana@mail.com"))
        = some { h0 with nombre := "Berta", telefono := "999" } ∧
      (resolverHuesped dbPendiente "Berta" "ana@mail.com" "999").2 = h0.id) :=
  resolver_huesped_dedup dbPendiente "Berta" "ana@mail.com" "999" (by decide)
